import Mathlib

/-!
Verification of `donkeypart_unitysimulator/part.py` (the `FPSTimer` and
`SteeringServer` classes) against its natural-language specification.

Modelling conventions:
* Python floats are modelled as exact rationals (`ℚ`); the concrete constants
  of the source (`0.3`, `100`, the defaults `4.0` and `1.0`) are exactly
  representable, so no rounding behaviour is relevant to the claims.
* `time.time()` is modelled by passing the sampled clock value(s) as explicit
  arguments: `FPSTimer.on_frame` reads the clock twice in the source (once for
  the elapsed time `e`, once for the new start time `self.t`), so it takes two
  clock arguments `e` and `t2`.
* Opaque external capabilities are fields of the server record, universally
  quantified in the theorems: `pyFloat` models Python's `float(...)` parse
  (`none` = `ValueError`), `decodeImage` models
  `np.asarray(Image.open(BytesIO(base64.b64decode(s))))` (`none` = a decode
  exception), `kpart` models `self.kpart.run` and `image_part` models the
  optional `self.image_part.run` filter.
* The observable behaviour of one handler invocation is a list of `Step`s
  (adapter calls, `sio.emit` calls, `print` outputs, `on_frame` ticks) plus an
  `Except`-style outcome: `.error` means the Python handler raised an
  exception at that point (the steps recorded are the ones that happened
  before the raise), `.ok` carries the mutated server object.
* `sio.emit` addressing: both call sites of the source pass `skip_sid=True`
  and no `room`/`to` argument.  python-socketio delivers such an emit to every
  participant `sid` of the namespace with `sid != skip_sid`; since a Python
  `str` never equals the literal `True`, no participant is skipped.
  `Emit.recipients` encodes exactly this delivery rule.
-/

namespace DonkeySim

/-- A decoded pixel buffer (`np.asarray(image)`), kept abstract as a list of
bytes; the pipeline only passes it around. -/
abbrev Img := List ℕ

/-- An inbound telemetry payload: the JSON dictionary, as an association list
from string keys to raw string values.  The whole argument of the handler is
`Option Payload`: `none` models Python `None`, `some []` an empty dict — both
are falsy for the source's `if data:` test. -/
abbrev Payload := List (String × String)

/-- The Python exceptions the `telemetry` handler can raise. -/
inductive PyError where
  | keyError (key : String)
  | valueError (field : String)
  | imageError (raw : String)
deriving DecidableEq

/-- The `skip_sid` argument of a `sio.emit` call.  Both call sites of the
source pass the Python literal `True` (constructor `pyTrue`); a plain sid
string or an absent argument are also representable. -/
inductive SkipSid where
  | noSkip
  | pyTrue
  | sid (s : String)
deriving DecidableEq

/-- Whether python-socketio's delivery loop skips participant `s`: the test in
`base_manager.emit` is `sid != skip_sid`, and a sid string never equals the
Python literal `True`. -/
def SkipSid.skips : SkipSid → String → Bool
  | .noSkip, _ => false
  | .pyTrue, _ => false
  | .sid t, s => t == s

/-- One `sio.emit(event, data=payload, skip_sid=skip)` call. -/
structure Emit where
  event : String
  payload : List (String × String)
  skip : SkipSid
deriving DecidableEq

/-- The connections that actually receive an emit, out of the currently
connected sids `conns`: everyone the `skip_sid` argument does not skip
(python-socketio broadcasts to the whole default room when no `room` is
given). -/
def Emit.recipients (conns : List String) (em : Emit) : List String :=
  conns.filter (fun s => ! em.skip.skips s)

/-- One observable step of a handler invocation, in execution order. -/
inductive Step where
  | decodeImg (raw : String)
  | preprocess (img : Img)
  | predict (img : Img)
  | govern (lastSteering lastThrottle speed nnThrottle : ℚ)
  | emitEvent (em : Emit)
  | logConnect (sid : String)
  | onFrame
  | fpsReport (rate : ℚ)
deriving DecidableEq

/-- The emits among a step trace. -/
def emitsOf (steps : List Step) : List Emit :=
  steps.filterMap fun s =>
    match s with
    | .emitEvent em => some em
    | _ => none

/-- The "steer" emits among a step trace. -/
def steerEmits (steps : List Step) : List Emit :=
  (emitsOf steps).filter (fun em => em.event == "steer")

/-- The "manual" emits among a step trace. -/
def manualEmits (steps : List Step) : List Emit :=
  (emitsOf steps).filter (fun em => em.event == "manual")

/-- The arguments of the `kpart.run` (predict) calls in a step trace. -/
def predictArgs (steps : List Step) : List Img :=
  steps.filterMap fun s =>
    match s with
    | .predict img => some img
    | _ => none

/-- The arguments of the `image_part.run` (preprocess) calls in a step
trace. -/
def preprocessArgs (steps : List Step) : List Img :=
  steps.filterMap fun s =>
    match s with
    | .preprocess img => some img
    | _ => none

/-- How many `timer.on_frame()` calls a step trace contains. -/
def onFrameCount (steps : List Step) : ℕ :=
  steps.countP fun s =>
    match s with
    | .onFrame => true
    | _ => false

/-- The fps rates printed by `on_frame` in a step trace. -/
def fpsReports (steps : List Step) : List ℚ :=
  steps.filterMap fun s =>
    match s with
    | .fpsReport r => some r
    | _ => none

/-- Python's `__str__` applied to a numeric control value, modelled as the
canonical string rendering of the exact rational. -/
def pyStr (q : ℚ) : String := toString q

/-- The `FPSTimer` object: `self.t` (start time) and `self.iter` (frame
counter). -/
structure FPSTimer where
  t : ℚ
  iter : ℕ
deriving DecidableEq

/-- Models `FPSTimer.reset`: `self.t = time.time(); self.iter = 0`.  `now` is the
sampled clock value. -/
def FPSTimer.reset (now : ℚ) : FPSTimer :=
  { t := now, iter := 0 }

/-- Models `FPSTimer.on_frame`: increment `self.iter`; when it reaches 100, print
`fps (100.0 / (e - self.t))` where `e = time.time()`, then set `self.t` to a
fresh `time.time()` sample `t2` and zero the counter.  Returns the updated
timer and the observable steps (the tick itself, plus the fps report when it
fires). -/
def FPSTimer.on_frame (tm : FPSTimer) (e t2 : ℚ) : FPSTimer × List Step :=
  if tm.iter + 1 = 100 then
    ({ t := t2, iter := 0 }, [Step.onFrame, Step.fpsReport (100 / (e - tm.t))])
  else
    ({ tm with iter := tm.iter + 1 }, [Step.onFrame])

/-- Runs `on_frame` once per element of `samples` (each element is the pair of
clock samples that call would read), collecting all steps. -/
def FPSTimer.run (tm : FPSTimer) : List (ℚ × ℚ) → FPSTimer × List Step
  | [] => (tm, [])
  | (e, t2) :: rest =>
    let this := tm.on_frame e t2
    let next := this.1.run rest
    (next.1, this.2 ++ next.2)

/-- The `SteeringServer` object.  `model`, `sio` and `app` of `__init__` are
the transport plumbing and carry no control-relevant state; the remaining
attributes are modelled directly.  `pyFloat` and `decodeImage` stand for the
external parsing calls of the `telemetry` body (see the file header). -/
structure SteeringServer where
  timer : FPSTimer
  pyFloat : String → Option ℚ
  decodeImage : String → Option Img
  kpart : Img → ℚ × ℚ
  image_part : Option (Img → Img)
  top_speed : ℚ
  steering_scale : ℚ

/-- Models `SteeringServer.throttle_control`: `if speed < self.top_speed: return 0.3`
else `return 0.0`. -/
def SteeringServer.throttle_control (srv : SteeringServer)
    (last_steering last_throttle speed nn_throttle : ℚ) : ℚ :=
  if speed < srv.top_speed then 0.3 else 0.0

/-- Models `SteeringServer.send_control`: `sio.emit("steer", data={'steering_angle':
steering_angle.__str__(), 'throttle': throttle.__str__()}, skip_sid=True)`.
Pure in the model: it produces the emit record. -/
def SteeringServer.send_control (steering_angle throttle : ℚ) : Emit :=
  { event := "steer"
    payload := [("steering_angle", pyStr steering_angle),
                ("throttle", pyStr throttle)]
    skip := SkipSid.pyTrue }

/-- Models the field-reading first phase of the `telemetry` body, in source order:
`float(data["steering_angle"])`, `float(data["throttle"])`,
`float(data["speed"])`, `data["image"]`, then the base64/PIL image decode.
A missing key raises `KeyError`, an unparseable scalar `ValueError`, a bad
image string an image decode error; the first failure wins. -/
def SteeringServer.decodeFrame (srv : SteeringServer) (data : Payload) :
    Except PyError (ℚ × ℚ × ℚ × String × Img) :=
  match data.lookup "steering_angle" with
  | none => .error (.keyError "steering_angle")
  | some s1 =>
    match srv.pyFloat s1 with
    | none => .error (.valueError "steering_angle")
    | some last_steering =>
      match data.lookup "throttle" with
      | none => .error (.keyError "throttle")
      | some s2 =>
        match srv.pyFloat s2 with
        | none => .error (.valueError "throttle")
        | some last_throttle =>
          match data.lookup "speed" with
          | none => .error (.keyError "speed")
          | some s3 =>
            match srv.pyFloat s3 with
            | none => .error (.valueError "speed")
            | some speed =>
              match data.lookup "image" with
              | none => .error (.keyError "image")
              | some imgString =>
                match srv.decodeImage imgString with
                | none => .error (.imageError imgString)
                | some image_array =>
                  .ok (last_steering, last_throttle, speed, imgString,
                       image_array)

/-- The result of one `telemetry` invocation: the steps that happened, and
either the mutated server (`.ok`) or the exception that escaped the handler
(`.error`). -/
structure TelemetryResult where
  steps : List Step
  outcome : Except PyError SteeringServer

/-- The `telemetry` handler.  Truthy `data`: read the scalar fields, decode
the image, optionally run `image_part.run`, run `kpart.run`, filter the
throttle through `throttle_control`, scale the steering by
`self.steering_scale`, `send_control` the pair.  Falsy `data` (Python `None`
or an empty dict): `sio.emit('manual', data={}, skip_sid=True)`.  Both
branches fall through to `self.timer.on_frame()`; an exception while reading
the fields skips everything after the point of the raise. -/
def SteeringServer.telemetry (srv : SteeringServer) (data : Option Payload)
    (e t2 : ℚ) : TelemetryResult :=
  match data with
  | some (kv :: data') =>
    match srv.decodeFrame (kv :: data') with
    | .error err => { steps := [], outcome := .error err }
    | .ok (last_steering, last_throttle, speed, imgString, image_array) =>
      let image1 :=
        match srv.image_part with
        | some f => f image_array
        | none => image_array
      let preSteps :=
        match srv.image_part with
        | some _ => [Step.preprocess image_array]
        | none => ([] : List Step)
      let steering0 := (srv.kpart image1).1
      let throttle0 := (srv.kpart image1).2
      let throttle := srv.throttle_control last_steering last_throttle speed
        throttle0
      let steering := steering0 * srv.steering_scale
      let em := SteeringServer.send_control steering throttle
      let frame := srv.timer.on_frame e t2
      { steps := Step.decodeImg imgString :: preSteps ++
          [Step.predict image1,
           Step.govern last_steering last_throttle speed throttle0,
           Step.emitEvent em] ++ frame.2
        outcome := .ok { srv with timer := frame.1 } }
  | _ =>
    let em : Emit := { event := "manual", payload := [], skip := .pyTrue }
    let frame := srv.timer.on_frame e t2
    { steps := Step.emitEvent em :: frame.2
      outcome := .ok { srv with timer := frame.1 } }

/-- The `connect` handler: `print("connect ", sid)`, `self.timer.reset()`,
`self.send_control(0, 0)`. -/
def SteeringServer.connect (srv : SteeringServer) (sid : String) (now : ℚ) :
    SteeringServer × List Step :=
  ({ srv with timer := FPSTimer.reset now },
   [Step.logConnect sid, Step.emitEvent (SteeringServer.send_control 0 0)])

/-- Whether an outcome is a normal return (`true`) or a raised exception
(`false`). -/
def outcomeOk (r : Except PyError SteeringServer) : Bool :=
  match r with
  | .ok _ => true
  | .error _ => false

/-- One public operation on the server, with the clock samples it would
read. -/
inductive Op where
  | connect (sid : String) (now : ℚ)
  | telemetry (data : Option Payload) (e t2 : ℚ)
  | throttleControl (ls lt sp nt : ℚ)
  | sendControl (sa th : ℚ)

/-- Applies one operation to the server object, keeping the state the
operation leaves behind (an exception leaves the object as it was, since
`telemetry` mutates nothing before `on_frame`; `throttle_control` and
`send_control` read `self` but assign no attribute). -/
def SteeringServer.applyOp (srv : SteeringServer) : Op → SteeringServer
  | .connect sid now => (srv.connect sid now).1
  | .telemetry data e t2 =>
    match (srv.telemetry data e t2).outcome with
    | .ok srv1 => srv1
    | .error _ => srv
  | .throttleControl ls lt sp nt =>
    let _ := srv.throttle_control ls lt sp nt
    srv
  | .sendControl sa th =>
    let _ := SteeringServer.send_control sa th
    srv

/-- Applies a sequence of operations in order. -/
def SteeringServer.applyOps (srv : SteeringServer) (ops : List Op) :
    SteeringServer :=
  ops.foldl SteeringServer.applyOp srv

/-! Concrete instances used to exercise the handlers on explicit inputs. -/

/-- A concrete server with no image filter part: a string-table float parser,
a one-image decoder, and a model that always answers `(1/4, 9/10)`. -/
def srvDemo : SteeringServer :=
  { timer := { t := 0, iter := 0 }
    pyFloat := fun s =>
      if s = "1.0" then some 1
      else if s = "2.0" then some 2
      else if s = "0.5" then some (1 / 2)
      else none
    decodeImage := fun s => if s = "IMG" then some [3, 1, 4] else none
    kpart := fun _ => (1 / 4, 9 / 10)
    image_part := none
    top_speed := 4
    steering_scale := 1 }

/-- The same server with an image filter part that prepends a byte. -/
def srvFilter : SteeringServer :=
  { srvDemo with image_part := some (fun img => 0 :: img) }

/-- A well-formed telemetry payload for `srvDemo`/`srvFilter`. -/
def goodPayload : Payload :=
  [("steering_angle", "1.0"), ("throttle", "2.0"), ("speed", "0.5"),
   ("image", "IMG")]

/-- A payload whose image bytes do not decode under `srvDemo.decodeImage`. -/
def badImagePayload : Payload :=
  [("steering_angle", "1.0"), ("throttle", "2.0"), ("speed", "0.5"),
   ("image", "JUNK")]

/-- The "steer" emit that `srvDemo` produces for `goodPayload`: model output
`(1/4, 9/10)`, steering scaled by 1, throttle governed at speed 1/2. -/
def steerEmitDemo : Emit :=
  { event := "steer"
    payload :=
      [("steering_angle", pyStr ((srvDemo.kpart [3, 1, 4]).1 *
        srvDemo.steering_scale)),
       ("throttle", pyStr (srvDemo.throttle_control 1 2 (1 / 2)
        (srvDemo.kpart [3, 1, 4]).2))]
    skip := SkipSid.pyTrue }

/-! Helper lemmas. -/

/-- The trace of one `on_frame` call is one tick, followed by the fps report
when the window closes. -/
theorem on_frame_steps_cases (tm : FPSTimer) (e t2 : ℚ) :
    (tm.on_frame e t2).2 = [Step.onFrame] ∨
    (tm.on_frame e t2).2 =
      [Step.onFrame, Step.fpsReport (100 / (e - tm.t))] := by
  unfold FPSTimer.on_frame
  by_cases h : tm.iter + 1 = 100 <;> simp [h]

/-- The steps of one `on_frame` call: no emits, no adapter calls, exactly one
tick. -/
theorem on_frame_steps (tm : FPSTimer) (e t2 : ℚ) :
    emitsOf (tm.on_frame e t2).2 = [] ∧
    predictArgs (tm.on_frame e t2).2 = [] ∧
    preprocessArgs (tm.on_frame e t2).2 = [] ∧
    onFrameCount (tm.on_frame e t2).2 = 1 := by
  unfold FPSTimer.on_frame
  by_cases h : tm.iter + 1 = 100 <;>
    simp [h, emitsOf, predictArgs, preprocessArgs, onFrameCount]

/-- An emit whose `skip_sid` argument is the Python literal `True` reaches
every connected sid: `True` equals no sid string, so the delivery filter
keeps everyone. -/
theorem recipients_of_pyTrue (conns : List String) (em : Emit)
    (h : em.skip = SkipSid.pyTrue) : Emit.recipients conns em = conns := by
  unfold Emit.recipients
  rw [h]
  simp [SkipSid.skips]

/-- A `None` payload takes the manual branch. -/
theorem telemetry_none (srv : SteeringServer) (e t2 : ℚ) :
    srv.telemetry none e t2 =
      { steps := Step.emitEvent
            { event := "manual", payload := [], skip := SkipSid.pyTrue } ::
            (srv.timer.on_frame e t2).2
        outcome := .ok { srv with timer := (srv.timer.on_frame e t2).1 } } :=
  rfl

/-- An empty dict payload is falsy in Python and also takes the manual
branch. -/
theorem telemetry_empty (srv : SteeringServer) (e t2 : ℚ) :
    srv.telemetry (some []) e t2 =
      { steps := Step.emitEvent
            { event := "manual", payload := [], skip := SkipSid.pyTrue } ::
            (srv.timer.on_frame e t2).2
        outcome := .ok { srv with timer := (srv.timer.on_frame e t2).1 } } :=
  rfl

/-- A failing field read aborts the handler: nothing observable happened and
the exception escapes. -/
theorem telemetry_error (srv : SteeringServer) (kv : String × String)
    (d : Payload) (e t2 : ℚ) (err : PyError)
    (h : srv.decodeFrame (kv :: d) = .error err) :
    srv.telemetry (some (kv :: d)) e t2 =
      { steps := [], outcome := .error err } := by
  simp only [SteeringServer.telemetry, h]

/-- The successful pipeline, spelled out from the decoded fields. -/
theorem telemetry_ok (srv : SteeringServer) (kv : String × String)
    (d : Payload) (e t2 : ℚ) (la lt sp : ℚ) (simg : String) (img : Img)
    (h : srv.decodeFrame (kv :: d) = .ok (la, lt, sp, simg, img)) :
    srv.telemetry (some (kv :: d)) e t2 =
      { steps := Step.decodeImg simg ::
          (match srv.image_part with
           | some _ => [Step.preprocess img]
           | none => []) ++
          [Step.predict
             (match srv.image_part with
              | some f => f img
              | none => img),
           Step.govern la lt sp
             (srv.kpart
               (match srv.image_part with
                | some f => f img
                | none => img)).2,
           Step.emitEvent (SteeringServer.send_control
             ((srv.kpart
               (match srv.image_part with
                | some f => f img
                | none => img)).1 * srv.steering_scale)
             (srv.throttle_control la lt sp
               (srv.kpart
                 (match srv.image_part with
                  | some f => f img
                  | none => img)).2))] ++
          (srv.timer.on_frame e t2).2
        outcome := .ok { srv with timer := (srv.timer.on_frame e t2).1 } } := by
  simp only [SteeringServer.telemetry, h]

/-- The whole decode chain succeeds when every field is present and
parses. -/
theorem decodeFrame_ok (srv : SteeringServer) (data : Payload)
    (s1 s2 s3 simg : String) (la lt sp : ℚ) (img : Img)
    (h1 : data.lookup "steering_angle" = some s1)
    (h2 : srv.pyFloat s1 = some la)
    (h3 : data.lookup "throttle" = some s2)
    (h4 : srv.pyFloat s2 = some lt)
    (h5 : data.lookup "speed" = some s3)
    (h6 : srv.pyFloat s3 = some sp)
    (h7 : data.lookup "image" = some simg)
    (h8 : srv.decodeImage simg = some img) :
    srv.decodeFrame data = .ok (la, lt, sp, simg, img) := by
  simp only [SteeringServer.decodeFrame, h1, h2, h3, h4, h5, h6, h7, h8]

/-- When the handler raises, no step was observable: every read precedes the
first effect. -/
theorem telemetry_error_steps (srv : SteeringServer) (data : Option Payload)
    (e t2 : ℚ) (h : outcomeOk (srv.telemetry data e t2).outcome = false) :
    (srv.telemetry data e t2).steps = [] := by
  match data with
  | none => rw [telemetry_none] at h; simp [outcomeOk] at h
  | some [] => rw [telemetry_empty] at h; simp [outcomeOk] at h
  | some (kv :: d) =>
    cases hd : srv.decodeFrame (kv :: d) with
    | error err => rw [telemetry_error srv kv d e t2 err hd]
    | ok val =>
      obtain ⟨la, lt, sp, simg, img⟩ := val
      rw [telemetry_ok srv kv d e t2 la lt sp simg img hd] at h
      simp [outcomeOk] at h

/-- A normal return of `telemetry` only ever mutates the timer attribute. -/
theorem telemetry_ok_timer_only (srv : SteeringServer) (data : Option Payload)
    (e t2 : ℚ) (srv1 : SteeringServer)
    (h : (srv.telemetry data e t2).outcome = .ok srv1) :
    srv1 = { srv with timer := srv1.timer } := by
  match data with
  | none =>
    simp only [telemetry_none] at h
    injection h with h
    subst h
    rfl
  | some [] =>
    simp only [telemetry_empty] at h
    injection h with h
    subst h
    rfl
  | some (kv :: d) =>
    cases hd : srv.decodeFrame (kv :: d) with
    | error err =>
      simp only [telemetry_error srv kv d e t2 err hd] at h
      exact Except.noConfusion h
    | ok val =>
      obtain ⟨la, lt, sp, simg, img⟩ := val
      simp only [telemetry_ok srv kv d e t2 la lt sp simg img hd] at h
      injection h with h
      subst h
      rfl

/-- No single operation changes `top_speed` or `steering_scale`. -/
theorem applyOp_preserves_config (srv : SteeringServer) (op : Op) :
    (srv.applyOp op).top_speed = srv.top_speed ∧
    (srv.applyOp op).steering_scale = srv.steering_scale := by
  cases op with
  | connect sid now => exact ⟨rfl, rfl⟩
  | telemetry data e t2 =>
    refine ⟨?_, ?_⟩ <;>
    · simp only [SteeringServer.applyOp]
      split
      · rename_i srv1 h
        rw [telemetry_ok_timer_only srv data e t2 srv1 h]
      · rfl
  | throttleControl ls lt sp nt => exact ⟨rfl, rfl⟩
  | sendControl sa th => exact ⟨rfl, rfl⟩

/-- C4: `throttle_control` returns exactly 0.3 when `speed < top_speed` and
exactly 0.0 otherwise, and its result does not depend on `last_steering`,
`last_throttle` or `nn_throttle`. -/
theorem C4_throttle_control_policy (srv : SteeringServer)
    (ls lt sp nt ls' lt' nt' : ℚ) :
    srv.throttle_control ls lt sp nt =
      (if sp < srv.top_speed then (0.3 : ℚ) else 0.0) ∧
    srv.throttle_control ls lt sp nt = srv.throttle_control ls' lt' sp nt' :=
  ⟨rfl, rfl⟩

/-- C6: the `connect` handler resets the frame-rate tracker (counter zeroed,
start time set to the fresh clock sample) and its observable output is the
connect log line followed by exactly one "steer" emit whose payload is the
canonical zero command — all before any telemetry callback for the connection
can run, since it happens inside the `connect` handler itself. -/
theorem C6_connect_resets_and_zeroes (srv : SteeringServer) (sid : String)
    (now : ℚ) :
    srv.connect sid now =
      ({ srv with timer := { t := now, iter := 0 } },
       [Step.logConnect sid,
        Step.emitEvent
          { event := "steer"
            payload := [("steering_angle", "0"), ("throttle", "0")]
            skip := SkipSid.pyTrue }]) ∧
    steerEmits (srv.connect sid now).2 =
      [{ event := "steer"
         payload := [("steering_angle", "0"), ("throttle", "0")]
         skip := SkipSid.pyTrue }] :=
  ⟨rfl, rfl⟩

/-- C9: `top_speed` and `steering_scale` are fixed at construction: no
sequence of `connect`, `telemetry`, `throttle_control` or `send_control`
operations changes them. -/
theorem C9_config_read_only (srv : SteeringServer) (ops : List Op) :
    (srv.applyOps ops).top_speed = srv.top_speed ∧
    (srv.applyOps ops).steering_scale = srv.steering_scale := by
  induction ops generalizing srv with
  | nil => exact ⟨rfl, rfl⟩
  | cons op rest ih =>
    have h1 := applyOp_preserves_config srv op
    have h2 := ih (srv.applyOp op)
    simp only [SteeringServer.applyOps, List.foldl_cons]
    simp only [SteeringServer.applyOps] at h2
    exact ⟨h2.1.trans h1.1, h2.2.trans h1.2⟩

/-- C10 (amended): a `telemetry` invocation that returns normally — the
empty/null manual frames and the successfully processed frames — ticks the
frame-rate tracker exactly once; an invocation that raises while reading the
payload never reaches `self.timer.on_frame()` and ticks it zero times. -/
theorem C10_on_frame_per_invocation (srv : SteeringServer)
    (data : Option Payload) (e t2 : ℚ) :
    onFrameCount (srv.telemetry data e t2).steps =
      if outcomeOk (srv.telemetry data e t2).outcome then 1 else 0 := by
  match data with
  | none =>
    rw [telemetry_none]
    rcases on_frame_steps_cases srv.timer e t2 with hf | hf <;>
      rw [hf] <;> simp [onFrameCount, outcomeOk]
  | some [] =>
    rw [telemetry_empty]
    rcases on_frame_steps_cases srv.timer e t2 with hf | hf <;>
      rw [hf] <;> simp [onFrameCount, outcomeOk]
  | some (kv :: d) =>
    cases hd : srv.decodeFrame (kv :: d) with
    | error err =>
      rw [telemetry_error srv kv d e t2 err hd]
      simp [onFrameCount, outcomeOk]
    | ok val =>
      obtain ⟨la, lt, sp, simg, img⟩ := val
      rw [telemetry_ok srv kv d e t2 la lt sp simg img hd]
      rcases on_frame_steps_cases srv.timer e t2 with hf | hf <;>
        rw [hf] <;> cases hip : srv.image_part <;>
        simp [hip, onFrameCount, outcomeOk]

/-- C10 (counterexample): a telemetry invocation with a malformed payload — a
non-numeric `steering_angle` — raises before the `on_frame()` line, so the
tracker is not advanced: the claim's "every telemetry invocation" fails. -/
theorem C10_counterexample :
    onFrameCount
      ((srvDemo.telemetry (some [("steering_angle", "oops")]) 0 0).steps) =
      0 := by decide

/-- C1 (amended): when the handler raises on a malformed payload — missing
key, non-numeric scalar or undecodable image, i.e. whenever the outcome is an
exception — the raise happens before any effect: zero "steer" events, zero
emits of any kind, no frame-rate tick, and the server object is left exactly
as it was, so the next frame is processed from an unchanged state.  The
exception does escape the handler, however: the frame is not dropped
silently. -/
theorem C1_malformed_drops_frame (srv : SteeringServer) (data : Option Payload)
    (e t2 : ℚ) (h : outcomeOk (srv.telemetry data e t2).outcome = false) :
    steerEmits (srv.telemetry data e t2).steps = [] ∧
    emitsOf (srv.telemetry data e t2).steps = [] ∧
    onFrameCount (srv.telemetry data e t2).steps = 0 ∧
    srv.applyOp (Op.telemetry data e t2) = srv := by
  have hs := telemetry_error_steps srv data e t2 h
  refine ⟨by rw [hs]; rfl, by rw [hs]; rfl, by rw [hs]; rfl, ?_⟩
  simp only [SteeringServer.applyOp]
  split
  · rename_i srv1 ho
    rw [ho] at h
    simp [outcomeOk] at h
  · rfl

/-- C1 (witness): the amended theorem applied to a concrete malformed frame
(image bytes that do not decode). -/
theorem C1_malformed_witness :
    outcomeOk ((srvDemo.telemetry (some badImagePayload) 1 2).outcome)
      = false ∧
    (steerEmits (srvDemo.telemetry (some badImagePayload) 1 2).steps = [] ∧
     emitsOf (srvDemo.telemetry (some badImagePayload) 1 2).steps = [] ∧
     onFrameCount (srvDemo.telemetry (some badImagePayload) 1 2).steps = 0 ∧
     srvDemo.applyOp (Op.telemetry (some badImagePayload) 1 2) = srvDemo) :=
  ⟨by decide,
   C1_malformed_drops_frame srvDemo (some badImagePayload) 1 2 (by decide)⟩

/-- C1 (counterexample): a payload missing the `speed` key makes the handler
raise a `KeyError` — the frame is not "dropped without raising", contrary to
the claim. -/
theorem C1_counterexample :
    outcomeOk ((srvDemo.telemetry
      (some [("steering_angle", "1.0"), ("throttle", "2.0"), ("image", "IMG")])
      0 0).outcome) = false := by decide

/-- C3 (amended): an empty or null telemetry payload produces exactly one
"manual" event with empty payload, zero "steer" events and zero inference
adapter invocations; however the emit is made with `skip_sid=True` and no
room, so it reaches every connected client — the sender included — rather
than "all connections except the sender". -/
theorem C3_manual_event (srv : SteeringServer) (e t2 : ℚ)
    (conns : List String) :
    (manualEmits (srv.telemetry none e t2).steps =
       [{ event := "manual", payload := [], skip := SkipSid.pyTrue }] ∧
     steerEmits (srv.telemetry none e t2).steps = [] ∧
     predictArgs (srv.telemetry none e t2).steps = [] ∧
     preprocessArgs (srv.telemetry none e t2).steps = []) ∧
    (manualEmits (srv.telemetry (some []) e t2).steps =
       [{ event := "manual", payload := [], skip := SkipSid.pyTrue }] ∧
     steerEmits (srv.telemetry (some []) e t2).steps = [] ∧
     predictArgs (srv.telemetry (some []) e t2).steps = [] ∧
     preprocessArgs (srv.telemetry (some []) e t2).steps = []) ∧
    Emit.recipients conns
      { event := "manual", payload := [], skip := SkipSid.pyTrue } = conns := by
  refine ⟨?_, ?_, recipients_of_pyTrue conns _ rfl⟩
  · rw [telemetry_none]
    rcases on_frame_steps_cases srv.timer e t2 with hf | hf <;>
      rw [hf] <;>
      simp [manualEmits, steerEmits, emitsOf, predictArgs, preprocessArgs]
  · rw [telemetry_empty]
    rcases on_frame_steps_cases srv.timer e t2 with hf | hf <;>
      rw [hf] <;>
      simp [manualEmits, steerEmits, emitsOf, predictArgs, preprocessArgs]

/-- C3 (counterexample): with connections "a" and "b", the manual emit for an
empty payload reaches both of them — whichever of the two was the sender, the
delivery is not "all connections except the sender". -/
theorem C3_counterexample :
    manualEmits (srvDemo.telemetry none 0 0).steps =
      [{ event := "manual", payload := [], skip := SkipSid.pyTrue }] ∧
    Emit.recipients ["a", "b"]
      { event := "manual", payload := [], skip := SkipSid.pyTrue } =
      ["a", "b"] ∧
    (["a", "b"] : List String) ≠ ["b"] ∧
    (["a", "b"] : List String) ≠ ["a"] := by
  decide

/-- C2 (amended): every "steer" event the telemetry handler emits carries
`skip_sid=True` and no target room, so python-socketio delivers it to every
connected client — a broadcast — and not to the single originating connection
only. -/
theorem C2_steer_goes_to_all (srv : SteeringServer) (data : Option Payload)
    (e t2 : ℚ) (conns : List String) (em : Emit)
    (h : em ∈ steerEmits (srv.telemetry data e t2).steps) :
    em.skip = SkipSid.pyTrue ∧ Emit.recipients conns em = conns := by
  have hskip : em.skip = SkipSid.pyTrue := by
    match data with
    | none =>
      rw [telemetry_none] at h
      rcases on_frame_steps_cases srv.timer e t2 with hf | hf <;>
        rw [hf] at h <;> simp [steerEmits, emitsOf] at h
    | some [] =>
      rw [telemetry_empty] at h
      rcases on_frame_steps_cases srv.timer e t2 with hf | hf <;>
        rw [hf] at h <;> simp [steerEmits, emitsOf] at h
    | some (kv :: d) =>
      cases hd : srv.decodeFrame (kv :: d) with
      | error err =>
        rw [telemetry_error srv kv d e t2 err hd] at h
        simp [steerEmits, emitsOf] at h
      | ok val =>
        obtain ⟨la, lt, sp, simg, img⟩ := val
        rw [telemetry_ok srv kv d e t2 la lt sp simg img hd] at h
        rcases on_frame_steps_cases srv.timer e t2 with hf | hf <;>
          rw [hf] at h <;> cases hip : srv.image_part <;>
          simp [hip, steerEmits, emitsOf, SteeringServer.send_control] at h <;>
          subst h <;> rfl
  exact ⟨hskip, recipients_of_pyTrue conns em hskip⟩

/-- C2 (witness): the amended theorem applied to a concrete successful frame
and two connections. -/
theorem C2_steer_goes_to_all_witness :
    steerEmitDemo ∈
      steerEmits (srvDemo.telemetry (some goodPayload) 0 0).steps ∧
    (steerEmitDemo.skip = SkipSid.pyTrue ∧
     Emit.recipients ["a", "b"] steerEmitDemo = ["a", "b"]) :=
  ⟨by
    rw [show steerEmits (srvDemo.telemetry (some goodPayload) 0 0).steps =
      [steerEmitDemo] from rfl]
    exact List.mem_singleton_self steerEmitDemo,
   C2_steer_goes_to_all srvDemo (some goodPayload) 0 0 ["a", "b"]
     steerEmitDemo
     (by
       rw [show steerEmits (srvDemo.telemetry (some goodPayload) 0 0).steps =
         [steerEmitDemo] from rfl]
       exact List.mem_singleton_self steerEmitDemo)⟩

/-- C2 (counterexample): a successfully processed frame with connections "a"
and "b" emits a "steer" event that both connections receive: whichever of the
two originated the frame, the event is not addressed to that single
connection only. -/
theorem C2_counterexample :
    steerEmits (srvDemo.telemetry (some goodPayload) 0 0).steps =
      [steerEmitDemo] ∧
    Emit.recipients ["a", "b"] steerEmitDemo = ["a", "b"] ∧
    (["a", "b"] : List String) ≠ ["a"] ∧
    (["a", "b"] : List String) ≠ ["b"] :=
  ⟨rfl, rfl, by decide, by decide⟩

/-- C8: when no image filter part is configured (`image_part` is `None`), the
pixel buffer handed to `kpart.run` is exactly the decoded image, and no
preprocess call happens. -/
theorem C8_no_image_part_identity (srv : SteeringServer) (data : Payload)
    (e t2 : ℚ) (s1 s2 s3 simg : String) (la lt sp : ℚ) (img : Img)
    (h0 : srv.image_part = none)
    (h1 : data.lookup "steering_angle" = some s1)
    (h2 : srv.pyFloat s1 = some la)
    (h3 : data.lookup "throttle" = some s2)
    (h4 : srv.pyFloat s2 = some lt)
    (h5 : data.lookup "speed" = some s3)
    (h6 : srv.pyFloat s3 = some sp)
    (h7 : data.lookup "image" = some simg)
    (h8 : srv.decodeImage simg = some img) :
    predictArgs (srv.telemetry (some data) e t2).steps = [img] ∧
    preprocessArgs (srv.telemetry (some data) e t2).steps = [] := by
  match data with
  | [] => simp [List.lookup] at h1
  | kv :: d =>
    have hd := decodeFrame_ok srv (kv :: d) s1 s2 s3 simg la lt sp img
      h1 h2 h3 h4 h5 h6 h7 h8
    rw [telemetry_ok srv kv d e t2 la lt sp simg img hd]
    rcases on_frame_steps_cases srv.timer e t2 with hf | hf <;>
      rw [hf] <;> simp [h0, predictArgs, preprocessArgs]

/-- C8 (witness): the theorem applied to `srvDemo` (which has no image part)
and a concrete well-formed payload. -/
theorem C8_no_image_part_witness :
    srvDemo.image_part = none ∧
    goodPayload.lookup "steering_angle" = some "1.0" ∧
    srvDemo.pyFloat "1.0" = some 1 ∧
    goodPayload.lookup "throttle" = some "2.0" ∧
    srvDemo.pyFloat "2.0" = some 2 ∧
    goodPayload.lookup "speed" = some "0.5" ∧
    srvDemo.pyFloat "0.5" = some (1 / 2) ∧
    goodPayload.lookup "image" = some "IMG" ∧
    srvDemo.decodeImage "IMG" = some [3, 1, 4] ∧
    (predictArgs (srvDemo.telemetry (some goodPayload) 5 6).steps =
       [[3, 1, 4]] ∧
     preprocessArgs (srvDemo.telemetry (some goodPayload) 5 6).steps = []) :=
  ⟨rfl, rfl, rfl, rfl, rfl, rfl, rfl, rfl, rfl,
   C8_no_image_part_identity srvDemo goodPayload 5 6 "1.0" "2.0" "0.5" "IMG"
     1 2 (1 / 2) [3, 1, 4] rfl rfl rfl rfl rfl rfl rfl rfl rfl⟩

/-- C5: for a well-formed payload the pipeline runs in source order — image
decode, optional preprocess, predict, govern, emit, frame tick — and the
emitted "steer" payload is the stringified pair
`(steering * steering_scale, throttle_control lastSteering lastThrottle speed
rawThrottle)` where `(steering, rawThrottle)` is the model output on the
(pre)processed image. -/
theorem C5_pipeline_order_and_values (srv : SteeringServer) (data : Payload)
    (e t2 : ℚ) (s1 s2 s3 simg : String) (la lt sp : ℚ) (img : Img)
    (h1 : data.lookup "steering_angle" = some s1)
    (h2 : srv.pyFloat s1 = some la)
    (h3 : data.lookup "throttle" = some s2)
    (h4 : srv.pyFloat s2 = some lt)
    (h5 : data.lookup "speed" = some s3)
    (h6 : srv.pyFloat s3 = some sp)
    (h7 : data.lookup "image" = some simg)
    (h8 : srv.decodeImage simg = some img) :
    srv.telemetry (some data) e t2 =
      { steps := Step.decodeImg simg ::
          (match srv.image_part with
           | some _ => [Step.preprocess img]
           | none => []) ++
          [Step.predict
             (match srv.image_part with
              | some f => f img
              | none => img),
           Step.govern la lt sp
             (srv.kpart
               (match srv.image_part with
                | some f => f img
                | none => img)).2,
           Step.emitEvent
             { event := "steer"
               payload := [("steering_angle",
                   pyStr ((srv.kpart
                     (match srv.image_part with
                      | some f => f img
                      | none => img)).1 * srv.steering_scale)),
                 ("throttle",
                   pyStr (srv.throttle_control la lt sp
                     (srv.kpart
                       (match srv.image_part with
                        | some f => f img
                        | none => img)).2))]
               skip := SkipSid.pyTrue }] ++
          (srv.timer.on_frame e t2).2
        outcome := .ok { srv with timer := (srv.timer.on_frame e t2).1 } } := by
  match data with
  | [] => simp [List.lookup] at h1
  | kv :: d =>
    exact telemetry_ok srv kv d e t2 la lt sp simg img
      (decodeFrame_ok srv (kv :: d) s1 s2 s3 simg la lt sp img
        h1 h2 h3 h4 h5 h6 h7 h8)

/-- C5 (witness): the pipeline theorem applied to `srvFilter` (which has an
image filter part) and a concrete well-formed payload. -/
theorem C5_pipeline_witness :
    goodPayload.lookup "steering_angle" = some "1.0" ∧
    srvFilter.pyFloat "1.0" = some 1 ∧
    goodPayload.lookup "throttle" = some "2.0" ∧
    srvFilter.pyFloat "2.0" = some 2 ∧
    goodPayload.lookup "speed" = some "0.5" ∧
    srvFilter.pyFloat "0.5" = some (1 / 2) ∧
    goodPayload.lookup "image" = some "IMG" ∧
    srvFilter.decodeImage "IMG" = some [3, 1, 4] ∧
    srvFilter.telemetry (some goodPayload) 3 4 =
      { steps := Step.decodeImg "IMG" ::
          (match srvFilter.image_part with
           | some _ => [Step.preprocess [3, 1, 4]]
           | none => []) ++
          [Step.predict
             (match srvFilter.image_part with
              | some f => f [3, 1, 4]
              | none => [3, 1, 4]),
           Step.govern 1 2 (1 / 2)
             (srvFilter.kpart
               (match srvFilter.image_part with
                | some f => f [3, 1, 4]
                | none => [3, 1, 4])).2,
           Step.emitEvent
             { event := "steer"
               payload := [("steering_angle",
                   pyStr ((srvFilter.kpart
                     (match srvFilter.image_part with
                      | some f => f [3, 1, 4]
                      | none => [3, 1, 4])).1 * srvFilter.steering_scale)),
                 ("throttle",
                   pyStr (srvFilter.throttle_control 1 2 (1 / 2)
                     (srvFilter.kpart
                       (match srvFilter.image_part with
                        | some f => f [3, 1, 4]
                        | none => [3, 1, 4])).2))]
               skip := SkipSid.pyTrue }] ++
          (srvFilter.timer.on_frame 3 4).2
        outcome := .ok
          { srvFilter with timer := (srvFilter.timer.on_frame 3 4).1 } } :=
  ⟨rfl, rfl, rfl, rfl, rfl, rfl, rfl, rfl,
   C5_pipeline_order_and_values srvFilter goodPayload 3 4 "1.0" "2.0" "0.5"
     "IMG" 1 2 (1 / 2) [3, 1, 4] rfl rfl rfl rfl rfl rfl rfl rfl⟩

/-- Splitting a run of `on_frame` calls at a list append. -/
theorem run_append (tm : FPSTimer) (a b : List (ℚ × ℚ)) :
    tm.run (a ++ b) =
      (((tm.run a).1.run b).1, (tm.run a).2 ++ ((tm.run a).1.run b).2) := by
  induction a generalizing tm with
  | nil => simp [FPSTimer.run]
  | cons p rest ih =>
    obtain ⟨e, t2⟩ := p
    simp [FPSTimer.run, ih]

/-- Fewer than 100 accumulated frames: the counter just adds up, no report is
printed and the start time is untouched. -/
theorem run_under_window (tm : FPSTimer) (samples : List (ℚ × ℚ))
    (h : tm.iter + samples.length < 100) :
    tm.run samples =
      ({ t := tm.t, iter := tm.iter + samples.length },
       List.replicate samples.length Step.onFrame) := by
  induction samples generalizing tm with
  | nil => simp [FPSTimer.run]
  | cons p rest ih =>
    obtain ⟨e, t2⟩ := p
    have hne : ¬tm.iter + 1 = 100 := by
      simp only [List.length_cons] at h
      omega
    have ih' := ih { t := tm.t, iter := tm.iter + 1 }
      (by simp only [List.length_cons] at h; simp; omega)
    simp only [FPSTimer.run, FPSTimer.on_frame]
    rw [if_neg hne]
    simp only [ih', List.replicate_succ]
    simp only [Prod.mk.injEq, FPSTimer.mk.injEq, List.cons.injEq]
    refine ⟨⟨trivial, ?_⟩, ?_⟩
    · simp only [List.length_cons]
      omega
    · simp only [List.length_cons, List.replicate_succ]
      rfl

/-- A pure sequence of ticks reports nothing. -/
theorem fpsReports_replicate_onFrame (n : ℕ) :
    fpsReports (List.replicate n Step.onFrame) = [] := by
  induction n with
  | zero => rfl
  | succ k ih =>
    simp only [fpsReports] at ih
    simp only [List.replicate_succ, fpsReports, List.filterMap_cons]
    simp [ih]

/-- Distributing `fpsReports` over an append. -/
theorem fpsReports_append (a b : List Step) :
    fpsReports (a ++ b) = fpsReports a ++ fpsReports b := by
  simp [fpsReports]

/-- C7: starting from a reset tracker, 100 `on_frame` calls print exactly one
fps report — none during the first 99 — whose value is 100 divided by the
elapsed time between the last reset and the report, after which the counter
is zero again and the start time is the fresh clock sample. -/
theorem C7_fps_window (tm : FPSTimer) (samples : List (ℚ × ℚ)) (e t2 : ℚ)
    (h0 : tm.iter = 0) (hlen : samples.length = 99) :
    fpsReports (tm.run (samples ++ [(e, t2)])).2 = [100 / (e - tm.t)] ∧
    fpsReports (tm.run samples).2 = [] ∧
    (tm.run (samples ++ [(e, t2)])).1 = { t := t2, iter := 0 } := by
  have hrun : tm.run samples =
      ({ t := tm.t, iter := 99 }, List.replicate 99 Step.onFrame) := by
    have h99 := run_under_window tm samples (by rw [h0, hlen]; omega)
    rw [h0, hlen] at h99
    simpa using h99
  have hlast : FPSTimer.run { t := tm.t, iter := 99 } [(e, t2)] =
      ({ t := t2, iter := 0 },
       [Step.onFrame, Step.fpsReport (100 / (e - tm.t))]) := by
    simp [FPSTimer.run, FPSTimer.on_frame]
  have happ := run_append tm samples [(e, t2)]
  rw [hrun, hlast] at happ
  refine ⟨?_, ?_, ?_⟩
  · rw [happ]
    rw [show (({ t := t2, iter := 0 } : FPSTimer),
        List.replicate 99 Step.onFrame ++
          [Step.onFrame, Step.fpsReport (100 / (e - tm.t))]).2 =
        List.replicate 99 Step.onFrame ++
          [Step.onFrame, Step.fpsReport (100 / (e - tm.t))] from rfl]
    rw [fpsReports_append, fpsReports_replicate_onFrame]
    simp [fpsReports]
  · rw [hrun]
    exact fpsReports_replicate_onFrame 99
  · rw [happ]

/-- C7 (witness): the window theorem applied to a tracker reset at time 5 and
100 concrete samples, the last one at elapsed-clock 15: one report of
`100 / (15 - 5)` fps, counter back at 0, start time renewed to 20. -/
theorem C7_fps_window_witness :
    (FPSTimer.mk 5 0).iter = 0 ∧
    (List.replicate 99 ((7 : ℚ), (8 : ℚ))).length = 99 ∧
    (fpsReports ((FPSTimer.mk 5 0).run
        (List.replicate 99 ((7 : ℚ), (8 : ℚ)) ++ [(15, 20)])).2 =
        [100 / (15 - (FPSTimer.mk 5 0).t)] ∧
     fpsReports ((FPSTimer.mk 5 0).run
        (List.replicate 99 ((7 : ℚ), (8 : ℚ)))).2 = [] ∧
     ((FPSTimer.mk 5 0).run
        (List.replicate 99 ((7 : ℚ), (8 : ℚ)) ++ [(15, 20)])).1 =
        { t := 20, iter := 0 }) :=
  ⟨rfl, by simp,
   C7_fps_window (FPSTimer.mk 5 0) (List.replicate 99 ((7 : ℚ), (8 : ℚ)))
     15 20 rfl (by simp)⟩

end DonkeySim
